import Mathlib

/-!
Verification of the generic database connector and manager
(`generic_database_connector.py`, `generic_database_manager.py`).

Python strings are embedded as `List Char`; dictionaries as association
lists; fallible calls as `Except`; external driver behaviour as oracle
parameters. Configuration values (YAML scalars and lists of scalars, the
shapes the connector's configuration actually uses) are embedded as a
two-level value type `PValue`.
-/

set_option linter.unusedVariables false

namespace GenDb

/-- Python strings, embedded as lists of characters. -/
abbrev PyStr := List Char

/-- The `{` character (written via its code point). -/
def lbrace : Char := Char.ofNat 123

/-- The `}` character (written via its code point). -/
def rbrace : Char := Char.ofNat 125

/-- `str.lower()` on the backend name, as in `__init__`. -/
def pyLower (s : PyStr) : PyStr := s.map Char.toLower

/-- A scalar YAML / Python value appearing in connection parameters. -/
inductive PAtom where
  | str (s : PyStr)
  | intV (n : Int)
  | boolV (b : Bool)
  | noneA
  deriving DecidableEq

/-- A connection-parameter value: a scalar or a list of scalars
(the shapes used by the configuration: hosts, auth pairs, ports, names). -/
inductive PValue where
  | atom (a : PAtom)
  | listV (items : List PAtom)
  deriving DecidableEq

/-- Deciding equality of `Except` values (needed to evaluate witnesses). -/
def exceptDecEq {ε α : Type} [DecidableEq ε] [DecidableEq α] :
    DecidableEq (Except ε α) := fun a b =>
  match a, b with
  | Except.ok x, Except.ok y =>
    if h : x = y then Decidable.isTrue (by rw [h])
    else Decidable.isFalse (fun hc => h (Except.ok.inj hc))
  | Except.error x, Except.error y =>
    if h : x = y then Decidable.isTrue (by rw [h])
    else Decidable.isFalse (fun hc => h (Except.error.inj hc))
  | Except.ok _, Except.error _ => Decidable.isFalse (fun hc => Except.noConfusion hc)
  | Except.error _, Except.ok _ => Decidable.isFalse (fun hc => Except.noConfusion hc)

instance {ε α : Type} [DecidableEq ε] [DecidableEq α] : DecidableEq (Except ε α) :=
  exceptDecEq

/-- Python `dict` lookup on an association list. -/
def lookupKey {β : Type} (k : PyStr) : List (PyStr × β) → Option β
  | [] => none
  | kv :: rest => if kv.1 = k then some kv.2 else lookupKey k rest

/-- Python `dict` assignment to an existing key (`conn_params['port'] = v`). -/
def setKey {β : Type} (k : PyStr) (v : β) (ps : List (PyStr × β)) : List (PyStr × β) :=
  ps.map (fun kv => if kv.1 = k then (k, v) else kv)

/-- The environment/secret provider: `os.getenv`, absent variables give `none`. -/
abbrev Env := PyStr → Option PyStr

/-- `value.startswith("${")` from `_resolve_env_vars`. -/
def startsWithPh : PyStr → Bool
  | c1 :: c2 :: _ => c1 == '$' && c2 == lbrace
  | _ => false

/-- `value.endswith("}")` from `_resolve_env_vars`. -/
def endsWithRb : PyStr → Bool
  | [] => false
  | [c] => c == rbrace
  | _ :: c :: cs => endsWithRb (c :: cs)

/-- The placeholder-shape test used by `_resolve_env_vars`:
`value.startswith("${") and value.endswith("}")`. -/
def isPlaceholder (s : PyStr) : Bool := startsWithPh s && endsWithRb s

/-- `value[2:-1]`: the variable name inside a `${NAME}` placeholder. -/
def placeholderName (s : PyStr) : PyStr := (s.drop 2).dropLast

/-- The string branch of `_resolve_env_vars`: a `${NAME}`-shaped string is
replaced by `os.getenv(NAME, "")`; any other string passes through. -/
def resolveStr (env : Env) (s : PyStr) : PyStr :=
  if isPlaceholder s then (env (placeholderName s)).getD [] else s

/-- `_resolve_env_vars` on one scalar: only strings are inspected. -/
def resolveAtom (env : Env) : PAtom → PAtom
  | PAtom.str s => PAtom.str (resolveStr env s)
  | a => a

/-- `_resolve_env_vars` on one value: strings by the string rule, lists
element-wise (string elements by the string rule via the recursive call on
a one-entry dict, non-string elements unchanged), all else unchanged. -/
def resolveValue (env : Env) : PValue → PValue
  | PValue.atom a => PValue.atom (resolveAtom env a)
  | PValue.listV items => PValue.listV (items.map (resolveAtom env))

/-- `_resolve_env_vars` on a whole connection-parameter mapping. -/
def resolve_env_vars (env : Env) (params : List (PyStr × PValue)) :
    List (PyStr × PValue) :=
  params.map (fun kv => (kv.1, resolveValue env kv.2))

theorem endsWithRb_append (l : PyStr) (a : Char) :
    endsWithRb (l ++ [a]) = (a == rbrace) := by
  induction l with
  | nil => rfl
  | cons x xs ih =>
    cases xs with
    | nil => rfl
    | cons y ys => simpa [endsWithRb] using ih

theorem endsWithRb_exists : ∀ l : PyStr, endsWithRb l = true → ∃ t, l = t ++ [rbrace] := by
  intro l
  induction l with
  | nil => intro h; cases h
  | cons x xs ih =>
    cases xs with
    | nil =>
      intro h
      have hx : x = rbrace := by simpa [endsWithRb] using h
      exact ⟨[], by simp [hx]⟩
    | cons y ys =>
      intro h
      have h2 : endsWithRb (y :: ys) = true := by simpa [endsWithRb] using h
      obtain ⟨t, ht⟩ := ih h2
      exact ⟨x :: t, by simp [ht]⟩

theorem dropLast_append_single (l : PyStr) (a : Char) : (l ++ [a]).dropLast = l := by
  induction l with
  | nil => rfl
  | cons x xs ih =>
    cases xs with
    | nil => rfl
    | cons y ys => simp [List.dropLast, ih]

/-- A string passes the shape test exactly when it is literally
dollar, open brace, some name, close brace. -/
theorem isPlaceholder_iff (s : PyStr) :
    isPlaceholder s = true ↔ ∃ name, s = '$' :: lbrace :: (name ++ [rbrace]) := by
  constructor
  · intro h
    match s, h with
    | c1 :: c2 :: rest, h =>
      have h1 : c1 = '$' ∧ c2 = lbrace := by
        have := h
        simp [isPlaceholder, startsWithPh] at this
        exact ⟨this.1.1, this.1.2⟩
      have h2 : endsWithRb (c1 :: c2 :: rest) = true := by
        simp [isPlaceholder] at h
        exact h.2
      cases rest with
      | nil =>
        exfalso
        have : c2 = rbrace := by simpa [endsWithRb] using h2
        rw [h1.2] at this
        exact absurd this (by decide)
      | cons r rs =>
        have h3 : endsWithRb (r :: rs) = true := by simpa [endsWithRb] using h2
        obtain ⟨t, ht⟩ := endsWithRb_exists _ h3
        exact ⟨t, by rw [h1.1, h1.2, ht]⟩
  · rintro ⟨name, rfl⟩
    have hs : startsWithPh ('$' :: lbrace :: (name ++ [rbrace])) = true := by
      simp [startsWithPh]
    have he : endsWithRb ('$' :: lbrace :: (name ++ [rbrace])) = true := by
      have : '$' :: lbrace :: (name ++ [rbrace]) = ('$' :: lbrace :: name) ++ [rbrace] := by
        simp
      rw [this, endsWithRb_append]
      simp
    simp [isPlaceholder, hs, he]

/-! ## Port coercion and truthiness (`connect`, lines 136-147) -/

/-- Accumulate decimal digits; any non-digit character fails (`ValueError`). -/
def parseDigitsAux : PyStr → Nat → Option Nat
  | [], acc => some acc
  | c :: cs, acc =>
    if c.isDigit then parseDigitsAux cs (acc * 10 + (c.toNat - 48)) else none

/-- A non-empty all-digit string parsed as a natural number. -/
def parseDigits : PyStr → Option Nat
  | [] => none
  | c :: cs => parseDigitsAux (c :: cs) 0

/-- Python `int(s)` on a string: an optional sign followed by at least one
digit (the forms port strings take); anything else raises `ValueError`,
embedded as `none`. -/
def pyIntOfStr : PyStr → Option Int
  | '-' :: rest => (parseDigits rest).map (fun n => -(n : Int))
  | '+' :: rest => (parseDigits rest).map (fun n => (n : Int))
  | s => (parseDigits s).map (fun n => (n : Int))

/-- Python `int(v)` on a parameter value: `none` models the raised
`ValueError`/`TypeError` caught at line 140. -/
def pyInt : PValue → Option Int
  | PValue.atom (PAtom.str s) => pyIntOfStr s
  | PValue.atom (PAtom.intV n) => some n
  | PValue.atom (PAtom.boolV b) => some (if b then 1 else 0)
  | PValue.atom PAtom.noneA => none
  | PValue.listV _ => none

/-- Python truthiness of a parameter value (the `conn_params['port']` test). -/
def pyTruthy : PValue → Bool
  | PValue.atom (PAtom.str s) => !s.isEmpty
  | PValue.atom (PAtom.intV n) => n != 0
  | PValue.atom (PAtom.boolV b) => b
  | PValue.atom PAtom.noneA => false
  | PValue.listV l => !l.isEmpty

/-- The `'port'` dictionary key. -/
def portKey : PyStr := "port".data

/-- Configuration-level failures (`ValueError` raised by the connector). -/
inductive ConfigError where
  | dbTypeNotFound
  | invalidPort
  | unknownDbType
  deriving DecidableEq

/-- Exceptions crossing the embedded Python code. -/
inductive PyErr where
  | config (e : ConfigError)
  | driverError
  | importError
  deriving DecidableEq

/-- The port-coercion block of `connect` (lines 136-147): guarded by
`'port' in conn_params and conn_params['port']`; `int()` failure falls back
to `default_port` when configured, else raises (`ConfigurationError`). -/
def coercePort (defaultPort : Option PValue) (params : List (PyStr × PValue)) :
    Except ConfigError (List (PyStr × PValue)) :=
  match lookupKey portKey params with
  | some v =>
    if pyTruthy v then
      match pyInt v with
      | some n => Except.ok (setKey portKey (PValue.atom (PAtom.intV n)) params)
      | none =>
        match defaultPort with
        | some d => Except.ok (setKey portKey d params)
        | none => Except.error ConfigError.invalidPort
    else Except.ok params
  | none => Except.ok params

/-! ## Connector state, construction, connect, disconnect, is_connected -/

/-- An opaque driver connection handle: the capabilities the connector
probes (`hasattr`) and the probe outcomes the drivers report. -/
structure Handle where
  isConnectedCap : Option (Except PyErr Bool) := none
  closedAttr : Option Bool := none
  docPing : Except PyErr Unit := Except.ok ()
  searchPing : Except PyErr Bool := Except.ok true
  closeCap : Option (Except PyErr Unit) := none
  disconnectCap : Option (Except PyErr Unit) := none
  deriving DecidableEq

/-- One backend's entry in the `databases` mapping of the configuration. -/
structure DbConfig where
  driver : PyStr
  dbType : PyStr
  connection_params : List (PyStr × PValue)
  default_port : Option PValue := none
  querySyn : Option (List (PyStr × PyStr)) := none
  features : List PyStr := []
  deriving DecidableEq

/-- The connector's mutable state: `self.connection`. -/
structure ConnState where
  connection : Option Handle
  deriving DecidableEq

/-- The family-specific driver connect entry points (external collaborators),
each receiving the resolved parameters and either producing a handle or
raising. -/
structure DriverOracle where
  rel : List (PyStr × PValue) → Except PyErr Handle
  doc : List (PyStr × PValue) → Except PyErr Handle
  search : List (PyStr × PValue) → Except PyErr Handle
  wide : List (PyStr × PValue) → Except PyErr Handle
  vector : List (PyStr × PValue) → Except PyErr Handle
  warehouse : List (PyStr × PValue) → Except PyErr Handle

/-- Driver-level events observable during construction (`__init__` can
only load the driver module; connecting is a separate method). -/
inductive DriverEvent where
  | importDriver (name : PyStr)
  | connectAttempt (family : PyStr)
  deriving DecidableEq

/-- `__init__` = `_load_config` then `_import_driver`: look the lowered
backend name up in the `databases` mapping (absence raises `ValueError`),
then import the configured driver. The family tag is not inspected here.
Returns the raised error or the loaded config, with the driver events. -/
def initConnector (db_type : PyStr) (src : List (PyStr × DbConfig))
    (importOracle : PyStr → Except PyErr Unit) :
    Except PyErr DbConfig × List DriverEvent :=
  match lookupKey (pyLower db_type) src with
  | none => (Except.error (PyErr.config ConfigError.dbTypeNotFound), [])
  | some cfg =>
    match importOracle cfg.driver with
    | Except.ok _ => (Except.ok cfg, [DriverEvent.importDriver cfg.driver])
    | Except.error e => (Except.error e, [DriverEvent.importDriver cfg.driver])

/-- The body of `connect` before its `except` clause: resolve placeholders,
coerce the port, then dispatch on `config['type']` to exactly one
family strategy; an unrecognized family raises `ValueError`. -/
def connectRun (cfg : DbConfig) (env : Env) (o : DriverOracle) :
    Except PyErr Handle :=
  let ps := resolve_env_vars env cfg.connection_params
  match coercePort cfg.default_port ps with
  | Except.error e => Except.error (PyErr.config e)
  | Except.ok ps2 =>
    if cfg.dbType = "relational".data then o.rel ps2
    else if cfg.dbType = "nosql_document".data then o.doc ps2
    else if cfg.dbType = "nosql_search".data then o.search ps2
    else if cfg.dbType = "nosql_wide_column".data then o.wide ps2
    else if cfg.dbType = "vector_database".data then o.vector ps2
    else if cfg.dbType = "data_warehouse".data then o.warehouse ps2
    else Except.error (PyErr.config ConfigError.unknownDbType)

/-- `connect`: the body wrapped in `try/except` — success stores the handle
and returns `True`; any exception clears `self.connection` and returns
`False`. -/
def connect (st : ConnState) (cfg : DbConfig) (env : Env) (o : DriverOracle) :
    Bool × ConnState :=
  match connectRun cfg env o with
  | Except.ok h => (true, ConnState.mk (some h))
  | Except.error _ => (false, ConnState.mk none)

/-- The six family tags recognized by `connect`'s dispatch chain. -/
def knownDbType (ty : PyStr) : Prop :=
  ty = "relational".data ∨ ty = "nosql_document".data ∨ ty = "nosql_search".data ∨
    ty = "nosql_wide_column".data ∨ ty = "vector_database".data ∨
    ty = "data_warehouse".data

instance (ty : PyStr) : Decidable (knownDbType ty) := by
  unfold knownDbType; infer_instance

/-- `is_connected`: no handle means `False`; otherwise a family-appropriate
liveness probe inside `try`, any exception giving `False`. -/
def is_connected (st : ConnState) (dbType : PyStr) : Bool :=
  match st.connection with
  | none => false
  | some h =>
    let probe : Except PyErr Bool :=
      if dbType = "relational".data then
        match h.isConnectedCap with
        | some r => r
        | none =>
          match h.closedAttr with
          | some b => Except.ok (!b)
          | none => Except.ok true
      else if dbType = "nosql_document".data then
        match h.docPing with
        | Except.ok _ => Except.ok true
        | Except.error e => Except.error e
      else if dbType = "nosql_search".data then h.searchPing
      else Except.ok true
    match probe with
    | Except.ok b => b
    | Except.error _ => false

/-- The teardown call `disconnect` makes: `close()` when present, else
`disconnect()` when present, else nothing. -/
def teardownResult (h : Handle) : Except PyErr Unit :=
  match h.closeCap with
  | some r => r
  | none =>
    match h.disconnectCap with
    | some r => r
    | none => Except.ok ()

/-- `disconnect`: nothing happens without a handle; otherwise the teardown
runs under `try/except` (errors only logged) and the `finally` block clears
`self.connection` on both outcomes. -/
def disconnect (st : ConnState) : ConnState :=
  match st.connection with
  | none => st
  | some h =>
    match teardownResult h with
    | Except.ok _ => ConnState.mk none
    | Except.error _ => ConnState.mk none

/-! ## Manager dispatch shape (the four CRUD verbs) -/

/-- Which family helper a verb invoked. -/
inductive BCall where
  | rel
  | doc
  | search
  deriving DecidableEq

/-- The body of `insert_one` before its `except` clause: the connectivity
guard, then the branch on `config['type']`; the family helper's outcome is
an oracle argument (`relR`/`docR`/`searchR`). The returned list records
which helper was invoked. -/
def insert_one_run (st : ConnState) (family : PyStr)
    (relR docR searchR : Except PyErr PValue) :
    Except PyErr (Option PValue) × List BCall :=
  if is_connected st family = false then (Except.ok none, [])
  else if family = "relational".data then (Except.map some relR, [BCall.rel])
  else if family = "nosql_document".data then (Except.map some docR, [BCall.doc])
  else if family = "nosql_search".data then (Except.map some searchR, [BCall.search])
  else (Except.ok none, [])

/-- `insert_one`: the body with its `except Exception` converting any raised
error into `None`. -/
def insert_one (st : ConnState) (family : PyStr)
    (relR docR searchR : Except PyErr PValue) : Option PValue × List BCall :=
  match insert_one_run st family relR docR searchR with
  | (Except.ok r, log) => (r, log)
  | (Except.error _, log) => (none, log)

/-- The body of `find_all` before its `except` clause (same dispatch shape). -/
def find_all_run (st : ConnState) (family : PyStr)
    (relR docR searchR : Except PyErr PValue) :
    Except PyErr (Option PValue) × List BCall :=
  if is_connected st family = false then (Except.ok none, [])
  else if family = "relational".data then (Except.map some relR, [BCall.rel])
  else if family = "nosql_document".data then (Except.map some docR, [BCall.doc])
  else if family = "nosql_search".data then (Except.map some searchR, [BCall.search])
  else (Except.ok none, [])

/-- `find_all` with its catch-all boundary. -/
def find_all (st : ConnState) (family : PyStr)
    (relR docR searchR : Except PyErr PValue) : Option PValue × List BCall :=
  match find_all_run st family relR docR searchR with
  | (Except.ok r, log) => (r, log)
  | (Except.error _, log) => (none, log)

/-- The body of `update_one` before its `except` clause (same dispatch shape). -/
def update_one_run (st : ConnState) (family : PyStr)
    (relR docR searchR : Except PyErr PValue) :
    Except PyErr (Option PValue) × List BCall :=
  if is_connected st family = false then (Except.ok none, [])
  else if family = "relational".data then (Except.map some relR, [BCall.rel])
  else if family = "nosql_document".data then (Except.map some docR, [BCall.doc])
  else if family = "nosql_search".data then (Except.map some searchR, [BCall.search])
  else (Except.ok none, [])

/-- `update_one` with its catch-all boundary. -/
def update_one (st : ConnState) (family : PyStr)
    (relR docR searchR : Except PyErr PValue) : Option PValue × List BCall :=
  match update_one_run st family relR docR searchR with
  | (Except.ok r, log) => (r, log)
  | (Except.error _, log) => (none, log)

/-- The body of `delete_one` before its `except` clause (same dispatch shape). -/
def delete_one_run (st : ConnState) (family : PyStr)
    (relR docR searchR : Except PyErr PValue) :
    Except PyErr (Option PValue) × List BCall :=
  if is_connected st family = false then (Except.ok none, [])
  else if family = "relational".data then (Except.map some relR, [BCall.rel])
  else if family = "nosql_document".data then (Except.map some docR, [BCall.doc])
  else if family = "nosql_search".data then (Except.map some searchR, [BCall.search])
  else (Except.ok none, [])

/-- `delete_one` with its catch-all boundary. -/
def delete_one (st : ConnState) (family : PyStr)
    (relR docR searchR : Except PyErr PValue) : Option PValue × List BCall :=
  match delete_one_run st family relR docR searchR with
  | (Except.ok r, log) => (r, log)
  | (Except.error _, log) => (none, log)

/-! ## Relational query construction (`_insert_one_relational`,
`_delete_one_relational`) -/

/-- Python `sep.join(xs)`. -/
def pyJoin (sep : PyStr) : List PyStr → PyStr
  | [] => []
  | [x] => x
  | x :: y :: rest => x ++ sep ++ pyJoin sep (y :: rest)

/-- Actions issued against the relational cursor/connection. -/
inductive DbAction where
  | execute (query : PyStr) (vals : List PValue)
  | commit
  | closeCursor
  deriving DecidableEq

/-- The relational cursor as seen by `_insert_one_relational`:
`cursor.lastrowid if hasattr(cursor, 'lastrowid') else None`. -/
structure Cursor where
  lastrowid : Option Int := none
  deriving DecidableEq

/-- `_insert_one_relational`: join quoted columns and repeated placeholder
tokens, build the INSERT statement, execute it with the record's values in
key order, commit, return the cursor's last-inserted id. -/
def insert_one_relational (syn : List (PyStr × PyStr)) (cur : Cursor)
    (table : PyStr) (data : List (PyStr × PValue)) : Option Int × List DbAction :=
  let quote := (lookupKey "identifier_quote".data syn).getD []
  let ph := (lookupKey "placeholder".data syn).getD "?".data
  let columns := pyJoin ", ".data (data.map (fun kv => quote ++ kv.1 ++ quote))
  let placeholders := pyJoin ", ".data (List.replicate data.length ph)
  let query := "INSERT INTO ".data ++ table ++ " (".data ++ columns ++
    ") VALUES (".data ++ placeholders ++ ")".data
  (cur.lastrowid,
   [DbAction.execute query (data.map Prod.snd), DbAction.commit, DbAction.closeCursor])

/-- A comma-separated rendering written independently of `pyJoin`,
following the spec's words for the INSERT template. -/
def commaList (xs : List PyStr) : PyStr :=
  match xs with
  | [] => []
  | x :: rest => x ++ (rest.map (fun s => ", ".data ++ s)).flatten

/-- The INSERT statement as the spec words it: `INSERT INTO target (cols...)
VALUES (placeholders...)`, each column wrapped in the identifier quote and
one placeholder token per column. -/
def specInsertQuery (quote ph table : PyStr) (cols : List PyStr) : PyStr :=
  "INSERT INTO ".data ++ table ++ " (".data ++
    commaList (cols.map (fun c => quote ++ c ++ quote)) ++
    ") VALUES (".data ++ commaList (cols.map (fun _ => ph)) ++ ")".data

/-- The DELETE statement built by `_delete_one_relational`: conditions joined
by ` AND `, each as `col = placeholder`; no row limit appears. -/
def delete_one_relational_query (syn : List (PyStr × PyStr)) (table : PyStr)
    (condCols : List PyStr) : PyStr :=
  let ph := (lookupKey "placeholder".data syn).getD "?".data
  "DELETE FROM ".data ++ table ++ " WHERE ".data ++
    pyJoin " AND ".data (condCols.map (fun c => c ++ " = ".data ++ ph))

/-! ## Driver delete semantics (modelled from the spec) for C8 -/

/-- A row / document: a field-name-to-value mapping. -/
abbrev Record := List (PyStr × PValue)

/-- The exact-equality condition mapping of the spec: every condition key
must be present with the given value. -/
def matchesConds (conds : List (PyStr × PValue)) (r : Record) : Bool :=
  conds.all (fun kv => decide (lookupKey kv.1 r = some kv.2))

/-- Modelled from the spec: the relational engine (external driver) executes
the unbounded `DELETE FROM ... WHERE ...` by removing every matching row and
reporting the removed count through `cursor.rowcount`; `src` holds only the
query construction, the SQL engine itself is an external collaborator. -/
def execDeleteAll : List Record → List (PyStr × PValue) → List Record × Nat
  | [], _ => ([], 0)
  | r :: rest, conds =>
    if matchesConds conds r then
      ((execDeleteAll rest conds).1, (execDeleteAll rest conds).2 + 1)
    else
      (r :: (execDeleteAll rest conds).1, (execDeleteAll rest conds).2)

/-- Modelled from the spec: the document driver's `delete_one` (external
collaborator) removes only the first matching document and reports a
`deleted_count` of 0 or 1. -/
def mongoDeleteOne : List Record → List (PyStr × PValue) → List Record × Nat
  | [], _ => ([], 0)
  | r :: rest, conds =>
    if matchesConds conds r then (rest, 1)
    else (r :: (mongoDeleteOne rest conds).1, (mongoDeleteOne rest conds).2)

/-- Which document-driver entry point `_delete_one_document` invokes. -/
inductive DocCall where
  | deleteOneCall (conds : List (PyStr × PValue))
  | deleteManyCall (conds : List (PyStr × PValue))
  deriving DecidableEq

/-- `_delete_one_relational` composed with the modelled engine: build the
WHERE clause, execute with the condition values, commit, report `rowcount`. -/
def delete_one_relational (syn : List (PyStr × PyStr)) (table : PyStr)
    (rows : List Record) (conds : List (PyStr × PValue)) :
    (List Record × Nat) × List DbAction :=
  let query := delete_one_relational_query syn table (conds.map Prod.fst)
  (execDeleteAll rows conds,
   [DbAction.execute query (conds.map Prod.snd), DbAction.commit, DbAction.closeCursor])

/-- `_delete_one_document` composed with the modelled driver: invoke the
single-document delete and return its `deleted_count`. -/
def delete_one_document (docs : List Record) (conds : List (PyStr × PValue)) :
    (List Record × Nat) × List DocCall :=
  (mongoDeleteOne docs conds, [DocCall.deleteOneCall conds])

/-! ## Concrete example inputs used by the witness theorems -/

/-- An environment holding only `DB_HOST=localhost`. -/
def exEnv : Env := fun n => if n = "DB_HOST".data then some "localhost".data else none

/-- An empty environment: every secret is unset. -/
def exEnvEmpty : Env := fun _ => none

/-- A driver handle with every capability at its default. -/
def exHandle : Handle := {}

/-- A handle whose `close()` raises. -/
def exHandleBadClose : Handle := { closeCap := some (Except.error PyErr.driverError) }

/-- An oracle whose every connect entry point raises. -/
def exOracleFail : DriverOracle :=
  { rel := fun _ => Except.error PyErr.driverError
    doc := fun _ => Except.error PyErr.driverError
    search := fun _ => Except.error PyErr.driverError
    wide := fun _ => Except.error PyErr.driverError
    vector := fun _ => Except.error PyErr.driverError
    warehouse := fun _ => Except.error PyErr.driverError }

/-- An oracle whose every connect entry point yields `exHandle`. -/
def exOracleOk : DriverOracle :=
  { rel := fun _ => Except.ok exHandle
    doc := fun _ => Except.ok exHandle
    search := fun _ => Except.ok exHandle
    wide := fun _ => Except.ok exHandle
    vector := fun _ => Except.ok exHandle
    warehouse := fun _ => Except.ok exHandle }

/-- A minimal relational backend configuration. -/
def exCfgRel : DbConfig :=
  { driver := "pymysql".data, dbType := "relational".data, connection_params := [] }

/-- A configuration whose family tag is not one of the six recognized values. -/
def exBadCfg : DbConfig :=
  { driver := "graphdriver".data, dbType := "graph".data, connection_params := [] }

/-- A relational configuration whose host and port are placeholders. -/
def exCfgPh : DbConfig :=
  { driver := "pymysql".data, dbType := "relational".data,
    connection_params :=
      [("host".data, PValue.atom (PAtom.str ('$' :: lbrace :: ("DB_HOST".data ++ [rbrace])))),
       ("port".data, PValue.atom (PAtom.str ('$' :: lbrace :: ("DB_PORT".data ++ [rbrace]))))] }

/-! ## Claim theorems -/

/-- Claim C1: placeholder resolution replaces exactly the strings of shape
dollar-brace-NAME-brace by the environment value of NAME (empty string when
unset), leaves every other string unchanged, and resolves list-valued
parameters element-wise by the same string rule (non-string elements pass
through, as they do at top level). -/
theorem resolve_env_vars_spec (env : Env) :
    (∀ name, resolveStr env ('$' :: lbrace :: (name ++ [rbrace])) = (env name).getD []) ∧
    (∀ s, isPlaceholder s = false → resolveStr env s = s) ∧
    (∀ s, isPlaceholder s = true ↔ ∃ name, s = '$' :: lbrace :: (name ++ [rbrace])) ∧
    (∀ items, resolveValue env (PValue.listV items) =
      PValue.listV (items.map (resolveAtom env))) ∧
    (∀ params k v, (k, v) ∈ params →
      (k, resolveValue env v) ∈ resolve_env_vars env params) := by
  refine ⟨?_, ?_, isPlaceholder_iff, fun items => rfl, ?_⟩
  · intro name
    have hp : isPlaceholder ('$' :: lbrace :: (name ++ [rbrace])) = true :=
      (isPlaceholder_iff _).mpr ⟨name, rfl⟩
    simp [resolveStr, hp, placeholderName, dropLast_append_single]
  · intro s h
    simp [resolveStr, h]
  · intro params k v hmem
    exact List.mem_map_of_mem _ hmem

/-- Witness for C1 at concrete inputs: `DB_HOST` set resolves, an unset name
resolves to the empty string, a non-placeholder string passes through. -/
theorem resolve_env_vars_spec_witness :
    resolveStr exEnv ('$' :: lbrace :: ("DB_HOST".data ++ [rbrace])) = "localhost".data ∧
    resolveStr exEnv ('$' :: lbrace :: ("MISSING".data ++ [rbrace])) = [] ∧
    resolveStr exEnv "plain".data = "plain".data := by
  refine ⟨?_, ?_, ?_⟩
  · rw [(resolve_env_vars_spec exEnv).1 "DB_HOST".data]; rfl
  · rw [(resolve_env_vars_spec exEnv).1 "MISSING".data]; rfl
  · exact (resolve_env_vars_spec exEnv).2.1 "plain".data (by decide)

/-- Claim C2 counterexample: a configuration containing an empty-string port
(as produced by an unset placeholder) together with a configured
`default_port` — the port value is non-numeric, yet the code's truthiness
guard skips the whole coercion block, so the default is NOT substituted and
the empty string survives, contradicting the claim. -/
theorem coercePort_empty_port_counterexample :
    coercePort (some (PValue.atom (PAtom.intV 1234)))
        [(portKey, PValue.atom (PAtom.str []))] =
      Except.ok [(portKey, PValue.atom (PAtom.str []))] ∧
    PValue.atom (PAtom.str []) ≠ PValue.atom (PAtom.intV 1234) :=
  ⟨rfl, by decide⟩

/-- Claim C2 as amended: for a configuration whose port parameter is present
and truthy, a numeric-string port is coerced to an integer, a coercion-failing
port is replaced by `default_port` when configured, and with no `default_port`
the port resolution raises a configuration error which `connect` converts to
a `false` return (falsy port values skip the block entirely). -/
theorem coercePort_truthy_spec (dp : Option PValue) (params : List (PyStr × PValue))
    (v : PValue) (hv : lookupKey portKey params = some v) (ht : pyTruthy v = true) :
    (∀ n, pyInt v = some n →
      coercePort dp params =
        Except.ok (setKey portKey (PValue.atom (PAtom.intV n)) params)) ∧
    (∀ d, pyInt v = none → dp = some d →
      coercePort dp params = Except.ok (setKey portKey d params)) ∧
    (pyInt v = none → dp = none →
      coercePort dp params = Except.error ConfigError.invalidPort) ∧
    (∀ cfg st env o, cfg.default_port = none →
      lookupKey portKey (resolve_env_vars env cfg.connection_params) = some v →
      pyInt v = none →
      connect st cfg env o = (false, ConnState.mk none)) := by
  refine ⟨?_, ?_, ?_, ?_⟩
  · intro n hn
    simp [coercePort, hv, ht, hn]
  · intro d hn hd
    simp [coercePort, hv, ht, hn, hd]
  · intro hn hd
    simp [coercePort, hv, ht, hn, hd]
  · intro cfg st env o hdp hl hn
    have hcp : coercePort cfg.default_port (resolve_env_vars env cfg.connection_params) =
        Except.error ConfigError.invalidPort := by
      simp [coercePort, hl, ht, hn, hdp]
    simp [connect, connectRun, hcp]

/-- Witness for the amended C2 at concrete inputs: numeric "8080" coerced,
non-numeric "abc" replaced by the default, non-numeric "abc" with no default
an error. -/
theorem coercePort_truthy_spec_witness :
    coercePort none [(portKey, PValue.atom (PAtom.str "8080".data))] =
      Except.ok [(portKey, PValue.atom (PAtom.intV 8080))] ∧
    coercePort (some (PValue.atom (PAtom.intV 5432)))
        [(portKey, PValue.atom (PAtom.str "abc".data))] =
      Except.ok [(portKey, PValue.atom (PAtom.intV 5432))] ∧
    coercePort none [(portKey, PValue.atom (PAtom.str "abc".data))] =
      Except.error ConfigError.invalidPort := by
  refine ⟨?_, ?_, ?_⟩
  · exact (coercePort_truthy_spec none [(portKey, PValue.atom (PAtom.str "8080".data))]
      (PValue.atom (PAtom.str "8080".data)) rfl rfl).1 8080 rfl
  · exact (coercePort_truthy_spec (some (PValue.atom (PAtom.intV 5432)))
      [(portKey, PValue.atom (PAtom.str "abc".data))]
      (PValue.atom (PAtom.str "abc".data)) rfl rfl).2.1
      (PValue.atom (PAtom.intV 5432)) rfl rfl
  · exact (coercePort_truthy_spec none [(portKey, PValue.atom (PAtom.str "abc".data))]
      (PValue.atom (PAtom.str "abc".data)) rfl rfl).2.2.1 rfl rfl

/-- Claim C6: a backend name whose lowered form is absent from the
configuration source makes construction raise the configuration error, with
no driver event at all — in particular no connect entry point is invoked
(construction can only ever emit `importDriver` events by its shape). -/
theorem missing_backend_fails_construction (db_type : PyStr)
    (src : List (PyStr × DbConfig)) (io : PyStr → Except PyErr Unit)
    (h : lookupKey (pyLower db_type) src = none) :
    initConnector db_type src io =
      (Except.error (PyErr.config ConfigError.dbTypeNotFound), []) := by
  simp [initConnector, h]

/-- Witness for C6: requesting `unknowndb` against a source holding only
`mysql`. -/
theorem missing_backend_fails_construction_witness :
    initConnector "unknowndb".data [("mysql".data, exCfgRel)] (fun _ => Except.ok ()) =
      (Except.error (PyErr.config ConfigError.dbTypeNotFound), []) :=
  missing_backend_fails_construction _ _ _ (by decide)

/-- Claim C10: an absent or falsy port parameter (for example the empty
string an unset placeholder produces) skips integer coercion and default
substitution entirely: the parameters reach the family strategy unchanged
and no port-related error arises. -/
theorem falsy_port_passthrough (dp : Option PValue) (params : List (PyStr × PValue)) :
    (lookupKey portKey params = none → coercePort dp params = Except.ok params) ∧
    (∀ v, lookupKey portKey params = some v → pyTruthy v = false →
      coercePort dp params = Except.ok params) ∧
    (∀ cfg env o, cfg.dbType = "relational".data →
      (∀ v, lookupKey portKey (resolve_env_vars env cfg.connection_params) = some v →
        pyTruthy v = false) →
      connectRun cfg env o = o.rel (resolve_env_vars env cfg.connection_params)) := by
  refine ⟨?_, ?_, ?_⟩
  · intro h
    simp [coercePort, h]
  · intro v h ht
    simp [coercePort, h, ht]
  · intro cfg env o hty hf
    have hcp : coercePort cfg.default_port (resolve_env_vars env cfg.connection_params) =
        Except.ok (resolve_env_vars env cfg.connection_params) := by
      cases hl : lookupKey portKey (resolve_env_vars env cfg.connection_params) with
      | none => simp [coercePort, hl]
      | some v => simp [coercePort, hl, hf v hl]
    simp [connectRun, hcp, hty]

/-- Witness for C10: a relational configuration whose port placeholder is
unset resolves to the empty string and is handed to the relational strategy
unchanged. -/
theorem falsy_port_passthrough_witness :
    connectRun exCfgPh exEnvEmpty exOracleOk =
      exOracleOk.rel [("host".data, PValue.atom (PAtom.str [])),
        ("port".data, PValue.atom (PAtom.str []))] ∧
    coercePort none [("port".data, PValue.atom (PAtom.str []))] =
      Except.ok [("port".data, PValue.atom (PAtom.str []))] := by
  constructor
  · have hf : ∀ v, lookupKey portKey (resolve_env_vars exEnvEmpty exCfgPh.connection_params) =
        some v → pyTruthy v = false := by
      intro v hv
      rw [show lookupKey portKey (resolve_env_vars exEnvEmpty exCfgPh.connection_params) =
        some (PValue.atom (PAtom.str [])) from rfl] at hv
      cases hv
      rfl
    exact (falsy_port_passthrough none []).2.2 exCfgPh exEnvEmpty exOracleOk rfl hf
  · exact (falsy_port_passthrough none _).2.1 (PValue.atom (PAtom.str [])) rfl rfl

/-- Claim C3: each of the four dispatcher verbs returns nothing with no
backend call when `is_connected` is false; returns nothing (with the helper
logged) when the invoked family helper raises; returns nothing on an
unrecognized family; and the catch-all boundary means no raised error ever
reaches the caller — every error outcome of the body maps to `none`. -/
theorem verbs_error_policy (st : ConnState) (family : PyStr)
    (relR docR searchR : Except PyErr PValue) :
    (is_connected st family = false →
      insert_one st family relR docR searchR = (none, []) ∧
      find_all st family relR docR searchR = (none, []) ∧
      update_one st family relR docR searchR = (none, []) ∧
      delete_one st family relR docR searchR = (none, [])) ∧
    (∀ e log, insert_one_run st family relR docR searchR = (Except.error e, log) →
      insert_one st family relR docR searchR = (none, log)) ∧
    (∀ e log, find_all_run st family relR docR searchR = (Except.error e, log) →
      find_all st family relR docR searchR = (none, log)) ∧
    (∀ e log, update_one_run st family relR docR searchR = (Except.error e, log) →
      update_one st family relR docR searchR = (none, log)) ∧
    (∀ e log, delete_one_run st family relR docR searchR = (Except.error e, log) →
      delete_one st family relR docR searchR = (none, log)) ∧
    (is_connected st family = true → family ≠ "relational".data →
      family ≠ "nosql_document".data → family ≠ "nosql_search".data →
      insert_one st family relR docR searchR = (none, []) ∧
      find_all st family relR docR searchR = (none, []) ∧
      update_one st family relR docR searchR = (none, []) ∧
      delete_one st family relR docR searchR = (none, [])) := by
  refine ⟨?_, ?_, ?_, ?_, ?_, ?_⟩
  · intro h
    refine ⟨?_, ?_, ?_, ?_⟩ <;>
      simp [insert_one, insert_one_run, find_all, find_all_run,
        update_one, update_one_run, delete_one, delete_one_run, h]
  · intro e log h
    simp [insert_one, h]
  · intro e log h
    simp [find_all, h]
  · intro e log h
    simp [update_one, h]
  · intro e log h
    simp [delete_one, h]
  · intro hc h1 h2 h3
    refine ⟨?_, ?_, ?_, ?_⟩ <;>
      simp [insert_one, insert_one_run, find_all, find_all_run,
        update_one, update_one_run, delete_one, delete_one_run, hc, h1, h2, h3]

/-- Witness for C3: no connection gives `(none, [])`; a raising relational
helper gives `none` with the call logged; a wide-column family (no helper)
gives `(none, [])`. -/
theorem verbs_error_policy_witness :
    insert_one (ConnState.mk none) "relational".data
      (Except.ok (PValue.atom PAtom.noneA)) (Except.ok (PValue.atom PAtom.noneA))
      (Except.ok (PValue.atom PAtom.noneA)) = (none, []) ∧
    insert_one (ConnState.mk (some exHandle)) "relational".data
      (Except.error PyErr.driverError) (Except.ok (PValue.atom PAtom.noneA))
      (Except.ok (PValue.atom PAtom.noneA)) = (none, [BCall.rel]) ∧
    delete_one (ConnState.mk (some exHandle)) "nosql_wide_column".data
      (Except.ok (PValue.atom PAtom.noneA)) (Except.ok (PValue.atom PAtom.noneA))
      (Except.ok (PValue.atom PAtom.noneA)) = (none, []) := by
  refine ⟨?_, ?_, ?_⟩
  · exact ((verbs_error_policy (ConnState.mk none) "relational".data _ _ _).1 rfl).1
  · exact (verbs_error_policy (ConnState.mk (some exHandle)) "relational".data _ _ _).2.1
      PyErr.driverError [BCall.rel] rfl
  · exact ((verbs_error_policy (ConnState.mk (some exHandle)) "nosql_wide_column".data
      _ _ _).2.2.2.2.2 rfl (by decide) (by decide) (by decide)).2.2.2

/-- Claim C4: every failing run of `connect`'s body — driver failures
included — leaves the connector disconnected (`connection = none`) and
returns `false`; no exception escapes (`connect` is a total boolean-valued
function of an arbitrary, possibly raising, oracle); a successful run stores
the handle and returns `true`. -/
theorem connect_error_policy (st : ConnState) (cfg : DbConfig) (env : Env)
    (o : DriverOracle) :
    (∀ e, connectRun cfg env o = Except.error e →
      connect st cfg env o = (false, ConnState.mk none)) ∧
    (∀ h, connectRun cfg env o = Except.ok h →
      connect st cfg env o = (true, ConnState.mk (some h))) ∧
    (∀ ps2 e, cfg.dbType = "relational".data →
      coercePort cfg.default_port (resolve_env_vars env cfg.connection_params) =
        Except.ok ps2 →
      o.rel ps2 = Except.error e →
      connect st cfg env o = (false, ConnState.mk none)) := by
  refine ⟨?_, ?_, ?_⟩
  · intro e h
    simp [connect, h]
  · intro h hh
    simp [connect, hh]
  · intro ps2 e hty hcp hrel
    simp [connect, connectRun, hty, hcp, hrel]

/-- Witness for C4: a raising relational driver yields `(false, no handle)`;
an accepting driver yields `(true, the handle)`. -/
theorem connect_error_policy_witness :
    connect (ConnState.mk none) exCfgRel exEnvEmpty exOracleFail =
      (false, ConnState.mk none) ∧
    connect (ConnState.mk none) exCfgRel exEnvEmpty exOracleOk =
      (true, ConnState.mk (some exHandle)) := by
  constructor
  · exact (connect_error_policy (ConnState.mk none) exCfgRel exEnvEmpty exOracleFail).1
      PyErr.driverError rfl
  · exact (connect_error_policy (ConnState.mk none) exCfgRel exEnvEmpty exOracleOk).2.1
      exHandle rfl

/-- Claim C5 counterexample: a configuration with the unrecognized family
`graph` — construction succeeds (no configuration error is raised: the
family tag is never inspected by `__init__`), and the invalid family is only
detected inside `connect`, whose catch-all converts the raised error into a
boolean `false`. -/
theorem invalid_family_counterexample :
    initConnector "graphdb".data [("graphdb".data, exBadCfg)] (fun _ => Except.ok ()) =
      (Except.ok exBadCfg, [DriverEvent.importDriver "graphdriver".data]) ∧
    connect (ConnState.mk none) exBadCfg exEnvEmpty exOracleOk =
      (false, ConnState.mk none) :=
  ⟨rfl, rfl⟩

/-- Claim C5 as amended: an invalid family tag passes construction untouched
(construction fails only on an absent name or failing driver import) and is
detected at `connect` time, where the raised error is converted to a
`false` return with no handle stored. -/
theorem invalid_family_detected_at_connect :
    (∀ cfg : DbConfig, ¬ knownDbType cfg.dbType →
      ∀ st env o, connect st cfg env o = (false, ConnState.mk none)) ∧
    (∀ db_type src io cfg, lookupKey (pyLower db_type) src = some cfg →
      io cfg.driver = Except.ok () →
      initConnector db_type src io =
        (Except.ok cfg, [DriverEvent.importDriver cfg.driver])) := by
  constructor
  · intro cfg hk st env o
    rw [knownDbType] at hk
    push_neg at hk
    obtain ⟨h1, h2, h3, h4, h5, h6⟩ := hk
    cases hcp : coercePort cfg.default_port (resolve_env_vars env cfg.connection_params) with
    | error e => simp [connect, connectRun, hcp]
    | ok ps2 => simp [connect, connectRun, hcp, h1, h2, h3, h4, h5, h6]
  · intro db_type src io cfg h1 h2
    simp [initConnector, h1, h2]

/-- Witness for the amended C5: the `graph` family reaches `connect` and
comes back as `false`; a well-formed `mysql` entry constructs fine. -/
theorem invalid_family_detected_at_connect_witness :
    connect (ConnState.mk none) exBadCfg exEnvEmpty exOracleFail =
      (false, ConnState.mk none) ∧
    initConnector "mysql".data [("mysql".data, exCfgRel)] (fun _ => Except.ok ()) =
      (Except.ok exCfgRel, [DriverEvent.importDriver "pymysql".data]) := by
  constructor
  · exact invalid_family_detected_at_connect.1 exBadCfg (by decide)
      (ConnState.mk none) exEnvEmpty exOracleFail
  · exact invalid_family_detected_at_connect.2 "mysql".data
      [("mysql".data, exCfgRel)] (fun _ => Except.ok ()) exCfgRel rfl rfl

theorem pyJoin_eq_commaList (xs : List PyStr) : pyJoin [',', ' '] xs = commaList xs := by
  induction xs with
  | nil => rfl
  | cons x rest ih =>
    cases rest with
    | nil => simp [pyJoin, commaList]
    | cons y ys =>
      have hstep : pyJoin ", ".data (x :: y :: ys) =
          x ++ ", ".data ++ pyJoin ", ".data (y :: ys) := rfl
      rw [hstep, ih]
      simp [commaList, List.append_assoc]

/-- Claim C7: on a non-empty record, the relational insert builds exactly
the spec's statement — `INSERT INTO target (cols...) VALUES (placeholders...)`
with every column wrapped in the identifier quote and one placeholder token
(defaulting to `?`) per column — executes it with the record's values in key
order, commits, and returns the cursor's last-inserted id. -/
theorem insert_one_relational_spec (syn : List (PyStr × PyStr)) (cur : Cursor)
    (table : PyStr) (data : List (PyStr × PValue)) (hne : data ≠ []) :
    insert_one_relational syn cur table data =
      (cur.lastrowid,
       [DbAction.execute
          (specInsertQuery ((lookupKey "identifier_quote".data syn).getD [])
            ((lookupKey "placeholder".data syn).getD "?".data) table
            (data.map Prod.fst))
          (data.map Prod.snd),
        DbAction.commit, DbAction.closeCursor]) := by
  simp [insert_one_relational, specInsertQuery, pyJoin_eq_commaList,
    List.map_map, Function.comp_def, List.map_const', List.length_map]

/-- Witness for C7: a two-column record against a `%s`-placeholder dialect
with no identifier quote configured. -/
theorem insert_one_relational_spec_witness :
    insert_one_relational [("placeholder".data, "%s".data)] (Cursor.mk (some 7))
        "users".data
        [("name".data, PValue.atom (PAtom.str "John".data)),
         ("age".data, PValue.atom (PAtom.intV 30))] =
      (some 7,
       [DbAction.execute "INSERT INTO users (name, age) VALUES (%s, %s)".data
          [PValue.atom (PAtom.str "John".data), PValue.atom (PAtom.intV 30)],
        DbAction.commit, DbAction.closeCursor]) := by
  rw [insert_one_relational_spec _ _ _ _ (by decide)]
  rfl

theorem mongoDeleteOne_eraseP (rows : List Record) (conds : List (PyStr × PValue)) :
    (mongoDeleteOne rows conds).1 = rows.eraseP (fun r => matchesConds conds r) := by
  induction rows with
  | nil => rfl
  | cons r rest ih =>
    cases h : matchesConds conds r with
    | true => simp [mongoDeleteOne, List.eraseP_cons, h]
    | false => simp [mongoDeleteOne, List.eraseP_cons, h, ih]

theorem mongoDeleteOne_count (rows : List Record) (conds : List (PyStr × PValue)) :
    (mongoDeleteOne rows conds).2 =
      (if rows.any (fun r => matchesConds conds r) then 1 else 0) := by
  induction rows with
  | nil => rfl
  | cons r rest ih =>
    cases h : matchesConds conds r with
    | true => simp [mongoDeleteOne, h]
    | false =>
      simp only [mongoDeleteOne, h, Bool.false_eq_true, not_false_iff, ite_false,
        List.any_cons, Bool.false_or, ih]

theorem execDeleteAll_spec (rows : List Record) (conds : List (PyStr × PValue)) :
    (execDeleteAll rows conds).1 = rows.filter (fun r => !(matchesConds conds r)) ∧
    (execDeleteAll rows conds).2 = rows.countP (fun r => matchesConds conds r) := by
  induction rows with
  | nil => exact ⟨rfl, rfl⟩
  | cons r rest ih =>
    cases h : matchesConds conds r with
    | true => simp [execDeleteAll, h, List.filter_cons, List.countP_cons, ih.1, ih.2]
    | false => simp [execDeleteAll, h, List.filter_cons, List.countP_cons, ih.1, ih.2]

/-- Claim C8: the document-family delete invokes the driver's
single-document delete — removing only the first matching document and
reporting 0 or 1 — while the relational delete issues the unbounded
`DELETE FROM target WHERE ...` (built from the condition columns, executed
with the condition values, then committed) that removes every matching row
and reports the full count. -/
theorem delete_one_divergence (syn : List (PyStr × PyStr)) (table : PyStr)
    (rows docs : List Record) (conds : List (PyStr × PValue)) :
    (delete_one_document docs conds).1.2 ≤ 1 ∧
    (delete_one_document docs conds).1.2 =
      (if docs.any (fun r => matchesConds conds r) then 1 else 0) ∧
    (delete_one_document docs conds).1.1 =
      docs.eraseP (fun r => matchesConds conds r) ∧
    (delete_one_document docs conds).2 = [DocCall.deleteOneCall conds] ∧
    (delete_one_relational syn table rows conds).1.2 =
      rows.countP (fun r => matchesConds conds r) ∧
    (delete_one_relational syn table rows conds).1.1 =
      rows.filter (fun r => !(matchesConds conds r)) ∧
    (delete_one_relational syn table rows conds).2 =
      [DbAction.execute
         (delete_one_relational_query syn table (conds.map Prod.fst))
         (conds.map Prod.snd),
       DbAction.commit, DbAction.closeCursor] := by
  refine ⟨?_, ?_, ?_, rfl, ?_, ?_, rfl⟩
  · have h : (delete_one_document docs conds).1.2 = (mongoDeleteOne docs conds).2 := rfl
    rw [h, mongoDeleteOne_count]
    by_cases hb : docs.any (fun r => matchesConds conds r) = true
    · simp [hb]
    · simp [hb]
  · exact mongoDeleteOne_count docs conds
  · exact mongoDeleteOne_eraseP docs conds
  · exact (execDeleteAll_spec rows conds).2
  · exact (execDeleteAll_spec rows conds).1

/-- Claim C9: `disconnect` is idempotent — after one call and after two the
handle is gone and `is_connected` is false for every family — and the handle
is cleared even when the teardown capability raises. -/
theorem disconnect_idempotent (st : ConnState) (family : PyStr) :
    (disconnect st).connection = none ∧
    (disconnect (disconnect st)).connection = none ∧
    is_connected (disconnect st) family = false ∧
    is_connected (disconnect (disconnect st)) family = false ∧
    (∀ h e, st.connection = some h → teardownResult h = Except.error e →
      (disconnect st).connection = none) := by
  have key : ∀ s : ConnState, (disconnect s).connection = none := by
    intro s
    cases s with
    | mk c =>
      cases c with
      | none => rfl
      | some h => cases ht : teardownResult h <;> simp [disconnect, ht]
  refine ⟨key st, key _, ?_, ?_, fun h e _ _ => key st⟩
  · simp [is_connected, key st]
  · simp [is_connected, key (disconnect st)]

/-- Witness for C9: a handle whose `close()` raises is still cleared, and
both the first and second disconnect leave `is_connected` false. -/
theorem disconnect_idempotent_witness :
    (disconnect (ConnState.mk (some exHandleBadClose))).connection = none ∧
    is_connected (disconnect (disconnect (ConnState.mk (some exHandleBadClose))))
      "relational".data = false := by
  constructor
  · exact (disconnect_idempotent (ConnState.mk (some exHandleBadClose))
      "relational".data).2.2.2.2 exHandleBadClose PyErr.driverError rfl rfl
  · exact (disconnect_idempotent (ConnState.mk (some exHandleBadClose))
      "relational".data).2.2.2.1

end GenDb
